import Mathlib

/-!
Verification of the prediction-request orchestration core of the
smart-tags-prediction-model dashboard: the RuleEngine (`deriveActions` in the
SmartActions component), the RequestScheduler (`triggerSimulation` in the
SimulatorControls component together with `predictGuestBehavior` in the api
module and `handleSubmit` in AnalyzePage), and the HistoryStore
(`getHistory` / `saveAnalysis` / `deleteRecord` / `clearHistory` in
src/lib/historyStore.ts).

JavaScript `number` fields are modelled as `Rat`; none of the verified
properties performs arithmetic on them, they are carried as opaque payload.
String-typed unions (`risk_label`, tag categories) are modelled as `String`,
which is the runtime representation the code compares with `===`.
-/

/-! ## Data model (src/lib/types.ts) -/

/-- `Sentiment` from types.ts: score, label ("positive" | "neutral" |
"negative"), display glyph. -/
structure Sentiment where
  score : Rat
  label : String
  emoji : String
deriving DecidableEq

/-- `SmartTag`: a categorized label with a display color.  The category and
label are loosely-typed strings, exactly as the rule engine consumes them. -/
structure SmartTag where
  label : String
  category : String
  color : String
deriving DecidableEq

/-- `GuestPrediction` from types.ts lines 7-19.  The declared TypeScript
interface has no `smart_tags` field, but the rule engine reads
`prediction.smart_tags || []` from the runtime object, so the runtime value
may or may not carry it; the possibly-absent field is modelled as an
`Option`, with `none` standing for `undefined`. -/
structure GuestPrediction where
  guest_name : String
  reservation_id : Option String
  reliability_score : Rat
  no_show_risk : Rat
  risk_label : String
  ai_tag : String
  spend_tag : String
  sentiment : Sentiment
  confidence : Rat
  tenant_id : String
  predicted_at : String
  smart_tags : Option (List SmartTag)
deriving DecidableEq

/-- `ReservationInput` from types.ts lines 21-36. -/
structure ReservationInput where
  guest_name : String
  party_size : Rat
  children : Rat
  booking_advance_days : Rat
  special_needs_count : Rat
  is_repeat_guest : Bool
  estimated_spend_per_cover : Rat
  reservation_date : Option String
  reservation_time : Option String
  previous_cancellations : Rat
  previous_completions : Rat
  booking_channel : String
  notes : String
  table_number : Option Rat
deriving DecidableEq

/-! ## RuleEngine: `deriveActions` (SmartActions component, part_003 lines 21-103)

`ActionButton` from part_003 lines 14-19; the `icon` field is a ReactNode in
the source and is represented here by the name of the lucide icon component
(the spec's iconHint). -/

structure ActionButton where
  label : String
  icon : String
  gradient : String
  glow : String
deriving DecidableEq

/-- The deposit-request action pushed at part_003 lines 30-35. -/
def requestDepositAction : ActionButton :=
  { label := "Request Deposit ($50)", icon := "ShieldAlert",
    gradient := "from-red-600 to-rose-500", glow := "shadow-red-500/30" }

/-- The VIP-protocol action pushed at part_003 lines 74-79. -/
def vipProtocolAction : ActionButton :=
  { label := "VIP Protocol", icon := "Star",
    gradient := "from-amber-600 to-yellow-500", glow := "shadow-amber-500/30" }

/-- The standard-service fallback action pushed at part_003 lines 94-99. -/
def standardServiceAction : ActionButton :=
  { label := "Standard Service", icon := "UtensilsCrossed",
    gradient := "from-slate-600 to-slate-500", glow := "shadow-slate-500/20" }

/-- Rule 1 (part_003 lines 29-36): High Risk pushes a deposit request.
`categories.has c` in the source is membership of `c` in
`new Set(tags.map(t => t.category))`, i.e. `tags.any (·.category == c)`;
`labels.has s` likewise over lowercased labels. -/
def depositBlock (riskLabel : String) : List ActionButton :=
  if riskLabel == "High Risk" then [requestDepositAction] else []

/-- Rule 2 (part_003 lines 39-47): Occasion category pushes a celebration
action, worded for the pastry chef when a tag labeled "birthday" is present. -/
def occasionBlock (tags : List SmartTag) : List ActionButton :=
  if tags.any (fun t => t.category == "Occasion") then
    [{ label := if tags.any (fun t => t.label.toLower == "birthday")
          then "Alert Pastry Chef" else "Prep Special Setup",
       icon := "Cake", gradient := "from-purple-600 to-violet-500",
       glow := "shadow-purple-500/30" }]
  else []

/-- Rule 3 (part_003 lines 50-59): Seating category pushes a seat-assignment
action embedding the first matching tag's label. -/
def seatingBlock (tags : List SmartTag) : List ActionButton :=
  if tags.any (fun t => t.category == "Seating") then
    [{ label := "Assign " ++
          (match tags.find? (fun t => t.category == "Seating") with
           | some t => t.label
           | none => "Preferred Seat"),
       icon := "Armchair", gradient := "from-blue-600 to-cyan-500",
       glow := "shadow-blue-500/30" }]
  else []

/-- Rule 4 (part_003 lines 62-70): Dietary category pushes an allergy kitchen
alert when an allergy-labeled tag is present, a generic dietary card
otherwise. -/
def dietaryBlock (tags : List SmartTag) : List ActionButton :=
  if tags.any (fun t => t.category == "Dietary") then
    if tags.any (fun t => t.label.toLower == "allergy alert")
        || tags.any (fun t => t.label.toLower == "nut allergy") then
      [{ label := "Alert Kitchen: Allergy", icon := "AlertTriangle",
         gradient := "from-orange-600 to-amber-500",
         glow := "shadow-orange-500/30" }]
    else
      [{ label := "Send Dietary Card", icon := "Leaf",
         gradient := "from-emerald-600 to-green-500",
         glow := "shadow-emerald-500/30" }]
  else []

/-- Rule 5 (part_003 lines 73-80): Status category pushes the VIP protocol. -/
def statusBlock (tags : List SmartTag) : List ActionButton :=
  if tags.any (fun t => t.category == "Status") then [vipProtocolAction] else []

/-- Rule 6 (part_003 lines 83-90): Family category pushes high-chair prep. -/
def familyBlock (tags : List SmartTag) : List ActionButton :=
  if tags.any (fun t => t.category == "Family") then
    [{ label := "Prep High Chair", icon := "Baby",
       gradient := "from-pink-600 to-rose-400", glow := "shadow-pink-500/30" }]
  else []

/-- `deriveActions` (part_003 lines 21-103).  The source pushes onto a
mutable `actions` array through six sequential `if` statements and then
falls back to "Standard Service" when the array stayed empty; the pushes are
rendered here as the concatenation of the six rule blocks in source order. -/
def deriveActions (prediction : GuestPrediction) : List ActionButton :=
  let tags := prediction.smart_tags.getD []
  let acc := depositBlock prediction.risk_label ++ occasionBlock tags ++
    seatingBlock tags ++ dietaryBlock tags ++ statusBlock tags ++ familyBlock tags
  if acc.isEmpty then [standardServiceAction] else acc

/-! ## HistoryStore (src/lib/historyStore.ts)

`AnalysisRecord` from historyStore.ts lines 3-9.  `source` is the
"analyze" | "tables" union, modelled as `String` like the other unions. -/

structure AnalysisRecord where
  id : String
  timestamp : String
  source : String
  input : ReservationInput
  prediction : GuestPrediction
deriving DecidableEq

/-- `MAX_RECORDS` constant, historyStore.ts line 12. -/
def MAX_RECORDS : Nat := 100

/-- A JSON value other than a well-formed record array, as produced by a
successful `JSON.parse` of corrupted storage (arrays of non-records are
subsumed: any parseable non-record-array content is some such value). -/
inductive JsonValue where
  | jnull
  | jbool (b : Bool)
  | jnum (n : Rat)
  | jstr (s : String)
deriving DecidableEq

/-- The content of the `emenu_analysis_history` localStorage key, abstracted
by the outcome of `JSON.parse` on the raw string: the key can be unset
(`getItem` returns null), hold the empty string (falsy in JS, like null),
hold a string `JSON.parse` throws on, hold the serialization of a record
array (the only shape the store itself ever writes), or hold a string that
parses to something that is not a record array. -/
inductive StoredHistory where
  | absent
  | emptyString
  | unparseable (raw : String)
  | recordArray (l : List AnalysisRecord)
  | otherValue (v : JsonValue)
deriving DecidableEq

/-- What `getHistory` hands back to its caller.  The source casts the parsed
value to `AnalysisRecord[]` without any shape check, so a parseable
non-record-array value flows through as-is; `malformed` records that case. -/
inductive HistoryReadResult where
  | records (l : List AnalysisRecord)
  | malformed (v : JsonValue)
deriving DecidableEq

/-- `getHistory` (historyStore.ts lines 18-26): null or empty raw string
gives `[]`; a `JSON.parse` throw is caught and gives `[]`; otherwise the
parsed value is returned through an unchecked cast.  The function itself
never throws (the only throwing operation sits inside the try/catch), which
is why its model is total and returns plainly rather than in `Except`. -/
def getHistory : StoredHistory → HistoryReadResult
  | .absent => .records []
  | .emptyString => .records []
  | .unparseable _ => .records []
  | .recordArray l => .records l
  | .otherValue v => .malformed v

/-- `saveAnalysis` (historyStore.ts lines 28-49), list-level view: starting
from the record list read back from well-formed storage, `history.unshift
(record)` prepends, and `if (history.length > MAX_RECORDS) history.length =
MAX_RECORDS` truncates to the first `MAX_RECORDS` entries, which is exactly
`take MAX_RECORDS` (a no-op when the list is short enough);
`localStorage.setItem(STORAGE_KEY, JSON.stringify(history))` then persists
the resulting list, and `JSON.parse` of that serialization reads it back
unchanged.  The freshly built record (generated id, timestamp, source,
input, prediction) is passed in explicitly because id and timestamp come
from `Date.now()` / `Math.random()` / `new Date()`. -/
def saveAnalysis (record : AnalysisRecord) (history : List AnalysisRecord) :
    List AnalysisRecord :=
  (record :: history).take MAX_RECORDS

/-- `deleteRecord` (historyStore.ts lines 55-58), list-level view: filter the
id out and re-persist. -/
def deleteRecord (id : String) (history : List AnalysisRecord) :
    List AnalysisRecord :=
  history.filter (fun r => r.id != id)

/-- `clearHistory` (historyStore.ts lines 51-53): `localStorage.removeItem`
leaves the key unset. -/
def clearHistory (_store : StoredHistory) : StoredHistory := .absent

/-- A sequence of `saveAnalysis` calls, earliest first. -/
def appendAll (recs : List AnalysisRecord) (history : List AnalysisRecord) :
    List AnalysisRecord :=
  recs.foldl (fun h r => saveAnalysis r h) history

/-! ## RequestScheduler (SimulatorControls component, part_001 lines 66-110,
and the api module, part_005)

The scheduler state kept by the component: `debounceRef` holds the pending
debounce timer, modelled by its fire time together with the
`updatedForm` captured by the timer callback's closure; requests are given
consecutive ids as their fetches are issued, `issued` logging each fetch
with its JSON body.  `arrived` marks request ids whose response (fulfilled
or rejected) has already been processed, `delivered` logs every
`onPrediction(result)` invocation and `surfacedErrors` every invocation of
an error callback — the component has no error callback and its catch block
(part_001 lines 84-85) is empty, so nothing ever appends to it.  The
`abortRef` bookkeeping of the source is observationally absent from the
state: the `AbortController` created at part_001 line 80 is aborted at line
76, but its `signal` is never passed to `predictGuestBehavior`, whose
`fetch` call (part_005 lines 23-27) takes no signal option, so aborting has
no effect on any in-flight request or on delivery.  The `simulating` UI
flag is presentational and not modelled. -/

structure SimState where
  pending : Option (Nat × ReservationInput)
  nextId : Nat
  issued : List (Nat × ReservationInput)
  arrived : List Nat
  delivered : List (Nat × GuestPrediction)
  surfacedErrors : List String
deriving DecidableEq

/-- Component state at mount: no timer, no requests. -/
def initSimState : SimState :=
  { pending := none, nextId := 0, issued := [], arrived := [],
    delivered := [], surfacedErrors := [] }

/-- The single-threaded event loop runs a due timer callback before any
later event: when the pending timer's fire time has been reached, its
callback (part_001 lines 78-89) runs, issuing the `predictGuestBehavior`
fetch with the captured form as body. -/
def fireIfDue (t : Nat) (s : SimState) : SimState :=
  match s.pending with
  | some (ft, f) =>
      if ft ≤ t then
        { s with pending := none,
                 issued := s.issued ++ [(s.nextId, f)],
                 nextId := s.nextId + 1 }
      else s
  | none => s

/-- JavaScript `String.prototype.trim`: strip leading and trailing
whitespace.  (Defined by structural recursion over the character list so
that concrete traces evaluate definitionally.) -/
def jsTrim (s : String) : String :=
  ⟨((s.data.dropWhile Char.isWhitespace).reverse.dropWhile
      Char.isWhitespace).reverse⟩

/-- `triggerSimulation` (part_001 lines 71-92) at event-loop time `t`:
a blank (whitespace-only) guest name returns before touching any state;
otherwise `clearTimeout` discards the pending timer,
`abortRef.current.abort()` runs without observable effect (see above), and
`setTimeout(..., 600)` installs a fresh timer capturing `updatedForm`. -/
def triggerSimulation (t : Nat) (updatedForm : ReservationInput)
    (s : SimState) : SimState :=
  if jsTrim updatedForm.guest_name == "" then s
  else { s with pending := some (t + 600, updatedForm) }

/-- External stimuli, each carrying its event-loop time: a `schedule` call
(a slider drag invoking `triggerSimulation`), or the network settling an
issued request's fetch promise — fulfilled with a prediction, or rejected
(non-2xx throws in `predictGuestBehavior`, or transport failure). -/
inductive SimEvent where
  | sched (t : Nat) (f : ReservationInput)
  | respondOk (t : Nat) (id : Nat) (p : GuestPrediction)
  | respondErr (t : Nat) (id : Nat)
deriving DecidableEq

/-- One event-loop step.  Responses are meaningful only for ids whose fetch
was actually issued and not yet settled; other response events are no-ops of
the environment.  A fulfilled fetch resumes the timer callback at part_001
line 83: `onPrediction(result)` runs unconditionally — there is no
generation check and no live abort signal, so even a superseded request
delivers.  A rejected fetch resumes in the empty catch block at part_001
lines 84-85: no callback of any kind runs. -/
def stepEvent (s : SimState) (e : SimEvent) : SimState :=
  match e with
  | .sched t f => triggerSimulation t f (fireIfDue t s)
  | .respondOk t id p =>
      let s := fireIfDue t s
      if (s.issued.any (fun q => q.1 == id)) && !(s.arrived.contains id) then
        { s with arrived := id :: s.arrived,
                 delivered := s.delivered ++ [(id, p)] }
      else s
  | .respondErr t id =>
      let s := fireIfDue t s
      if (s.issued.any (fun q => q.1 == id)) && !(s.arrived.contains id) then
        { s with arrived := id :: s.arrived }
      else s

/-- Run a list of events, in time order, from a given state. -/
def runEventsFrom (s : SimState) (evs : List SimEvent) : SimState :=
  evs.foldl stepEvent s

/-- Run a list of events from component mount. -/
def runEvents (evs : List SimEvent) : SimState :=
  runEventsFrom initSimState evs

/-- After the last external event, a still-pending timer eventually reaches
its fire time with no further activity and issues its fetch. -/
def flushPending (s : SimState) : SimState :=
  match s.pending with
  | some (_, f) =>
      { s with pending := none,
               issued := s.issued ++ [(s.nextId, f)],
               nextId := s.nextId + 1 }
  | none => s

/-- The `schedule` calls of a slider-drag burst, as timed events. -/
def schedEvents (calls : List (Nat × ReservationInput)) : List SimEvent :=
  calls.map (fun c => .sched c.1 c.2)

/-- Each call in the burst happens at or after its predecessor and strictly
less than the 600ms debounce window after it. -/
def gapsWithin : List (Nat × ReservationInput) → Bool
  | c1 :: c2 :: rest =>
      decide (c1.1 ≤ c2.1) && decide (c2.1 < c1.1 + 600) &&
        gapsWithin (c2 :: rest)
  | _ => true

/-! ## Remote call and explicit submit (part_005 lines 19-30, AnalyzePage
lines 46-62) -/

/-- The observable part of the `fetch` response consumed by
`predictGuestBehavior`: the ok flag, the status text, and the decoded JSON
body (relevant only when ok). -/
structure HttpResponse where
  ok : Bool
  statusText : String
  body : GuestPrediction
deriving DecidableEq

/-- `predictGuestBehavior` (part_005 lines 19-30) given the response its
fetch settles with: a non-2xx response throws
`Prediction failed: <statusText>`, otherwise the decoded body is returned. -/
def predictGuestBehavior (reservation : ReservationInput)
    (res : HttpResponse) : Except String GuestPrediction :=
  if !res.ok then .error ("Prediction failed: " ++ res.statusText)
  else .ok res.body

/-- The outcome of AnalyzePage's `handleSubmit`: the `error` UI state, the
`prediction` UI state, and whether a network call was made at all. -/
structure SubmitOutcome where
  error : String
  prediction : Option GuestPrediction
  networkCalled : Bool
deriving DecidableEq

/-- `handleSubmit` (AnalyzePage.tsx lines 46-62): a blank guest name sets
the inline error "Guest name is required" and returns before any network
call; otherwise `predictGuestBehavior` is awaited and its result or its
error message is written to UI state. -/
def handleSubmit (form : ReservationInput) (res : HttpResponse) :
    SubmitOutcome :=
  if jsTrim form.guest_name == "" then
    { error := "Guest name is required", prediction := none,
      networkCalled := false }
  else
    match predictGuestBehavior form res with
    | .ok result => { error := "", prediction := some result,
                      networkCalled := true }
    | .error msg => { error := msg, prediction := none, networkCalled := true }

/-! ## Concrete sample data used by witnesses and counterexamples -/

/-- A well-formed prediction with no `smart_tags` field and a non-High risk
label. -/
def basePrediction : GuestPrediction :=
  { guest_name := "Ada Lovelace", reservation_id := none,
    reliability_score := 9/10, no_show_risk := 1/10,
    risk_label := "Low Risk", ai_tag := "Reliable Regular",
    spend_tag := "Standard",
    sentiment := { score := 1/2, label := "neutral", emoji := ":-)" },
    confidence := 4/5, tenant_id := "restaurant_001",
    predicted_at := "2026-01-01T00:00:00Z", smart_tags := none }

/-- A High-Risk prediction carrying one Status-category tag. -/
def vipHighPrediction : GuestPrediction :=
  { basePrediction with
    risk_label := "High Risk",
    smart_tags := some [{ label := "VIP", category := "Status",
                          color := "gold" }] }

/-- A High-Risk prediction with no `smart_tags` field. -/
def highNoTagsPrediction : GuestPrediction :=
  { basePrediction with risk_label := "High Risk" }

/-- A ready-made reservation form. -/
def sampleForm (name : String) (lead : Rat) : ReservationInput :=
  { guest_name := name, party_size := 2, children := 0,
    booking_advance_days := lead, special_needs_count := 0,
    is_repeat_guest := false, estimated_spend_per_cover := 80,
    reservation_date := none, reservation_time := none,
    previous_cancellations := 0, previous_completions := 0,
    booking_channel := "Online", notes := "", table_number := none }

/-- A freshly built analysis record. -/
def sampleRecord : AnalysisRecord :=
  { id := "1700000000000-ab12cd", timestamp := "2026-01-01T00:00:00Z",
    source := "analyze", input := sampleForm "Ada Lovelace" 5,
    prediction := basePrediction }

/-- An older record already sitting in storage. -/
def oldRecord : AnalysisRecord :=
  { id := "1690000000000-ef34gh", timestamp := "2025-06-01T00:00:00Z",
    source := "tables", input := sampleForm "Grace Hopper" 1,
    prediction := vipHighPrediction }

/-- Forms for the two requests of the superseding scenario: the first drag
sets lead time 5, the second sets lead time 10. -/
def formR1 : ReservationInput := sampleForm "Ada Lovelace" 5

/-- The superseding request's form. -/
def formR2 : ReservationInput := sampleForm "Ada Lovelace" 10

/-- The remote result for the superseded request R1. -/
def predictionR1 : GuestPrediction :=
  { basePrediction with risk_label := "Medium Risk" }

/-- The remote result for the superseding request R2. -/
def predictionR2 : GuestPrediction := basePrediction

/-- A form whose guest name is whitespace-only. -/
def blankForm : ReservationInput := sampleForm "   " 5

/-- A 200 response carrying a prediction body. -/
def okResponse : HttpResponse :=
  { ok := true, statusText := "OK", body := basePrediction }

/-- A non-2xx response. -/
def errResponse : HttpResponse :=
  { ok := false, statusText := "Internal Server Error",
    body := basePrediction }

/-- The spec's concrete debounce scenario: schedule with lead time 5, then
100ms later schedule with lead time 10. -/
def burstCalls : List (Nat × ReservationInput) :=
  [(0, formR1), (100, formR2)]

/-- The superseding scenario of claim C1: R1 is scheduled at t=0 and its
fetch goes out when its timer fires at t=600; at t=700 a second schedule
supersedes it; R2's fetch goes out at t=1300; R2's response arrives at
t=1400 and R1's stale response arrives last at t=1500. -/
def staleTrace : List SimEvent :=
  [ .sched 0 formR1, .sched 700 formR2,
    .respondOk 1400 1 predictionR2, .respondOk 1500 0 predictionR1 ]

/-- A scheduled request that fails: scheduled at t=0, fetch issued at
t=600, rejected at t=700. -/
def failTrace : List SimEvent :=
  [ .sched 0 formR1, .respondErr 700 0 ]

/-! ## RuleEngine claims -/

/-- Claim C4: a GuestPrediction with an empty tag set and a risk label other
than "High Risk" makes `deriveActions` return exactly the single
standard-service fallback action, and `deriveActions` never returns an
empty list on any input. -/
theorem C4_fallback_completeness (p : GuestPrediction)
    (htags : p.smart_tags.getD [] = [])
    (hrisk : p.risk_label ≠ "High Risk") :
    deriveActions p = [standardServiceAction] ∧
    ∀ q : GuestPrediction, deriveActions q ≠ [] := by
  constructor
  · simp [deriveActions, htags, depositBlock, occasionBlock, seatingBlock,
      dietaryBlock, statusBlock, familyBlock, hrisk]
  · intro q
    simp only [deriveActions]
    split
    · simp
    · rename_i h
      simpa [List.isEmpty_iff] using h

theorem C4_fallback_completeness_witness :
    deriveActions basePrediction = [standardServiceAction] ∧
    deriveActions vipHighPrediction ≠ [] :=
  ⟨(C4_fallback_completeness basePrediction (by rfl) (by decide)).1,
   (C4_fallback_completeness basePrediction (by rfl) (by decide)).2
     vipHighPrediction⟩

/-- Claim C5: a High-Risk prediction with at least one Status-category tag
yields at least two actions, among them the deposit-request action followed
(in output order) by the VIP-protocol action — the two occur as an ordered
sublist, reflecting the fixed rule priority rather than tag discovery
order. -/
theorem C5_action_accumulation (p : GuestPrediction)
    (hrisk : p.risk_label = "High Risk")
    (hstatus : ∃ t ∈ p.smart_tags.getD [], t.category = "Status") :
    [requestDepositAction, vipProtocolAction].Sublist (deriveActions p) ∧
    2 ≤ (deriveActions p).length := by
  have hdep : depositBlock p.risk_label = [requestDepositAction] := by
    simp [depositBlock, hrisk]
  have hstat : statusBlock (p.smart_tags.getD []) = [vipProtocolAction] := by
    obtain ⟨t, ht, hc⟩ := hstatus
    simp only [statusBlock, List.any_eq_true]
    rw [if_pos ⟨t, ht, by simp [hc]⟩]
  have hsub : [requestDepositAction, vipProtocolAction].Sublist
      (deriveActions p) := by
    simp only [deriveActions, hdep, hstat, List.singleton_append,
      List.cons_append, List.append_assoc, List.nil_append,
      List.isEmpty_cons, Bool.false_eq_true, if_false]
    refine List.Sublist.cons₂ _ ?_
    refine List.Sublist.trans ?_ (List.sublist_append_right _ _)
    refine List.Sublist.trans ?_ (List.sublist_append_right _ _)
    refine List.Sublist.trans ?_ (List.sublist_append_right _ _)
    exact (List.nil_sublist _).cons₂ _
  exact ⟨hsub, by simpa using hsub.length_le⟩

theorem C5_action_accumulation_witness :
    [requestDepositAction, vipProtocolAction].Sublist
      (deriveActions vipHighPrediction) ∧
    2 ≤ (deriveActions vipHighPrediction).length :=
  C5_action_accumulation vipHighPrediction (by rfl) (by decide)

/-- Claim C10: `deriveActions` is total on predictions whose `smart_tags`
field is absent (the declared GuestPrediction interface does not include
it): the missing field reads as the empty tag set, so a High-Risk label
yields exactly the deposit-request action and any other label exactly the
standard-service fallback. -/
theorem C10_missing_smart_tags (p : GuestPrediction)
    (h : p.smart_tags = none) :
    (p.risk_label = "High Risk" → deriveActions p = [requestDepositAction]) ∧
    (p.risk_label ≠ "High Risk" →
      deriveActions p = [standardServiceAction]) := by
  constructor
  · intro hr
    simp [deriveActions, h, depositBlock, occasionBlock, seatingBlock,
      dietaryBlock, statusBlock, familyBlock, hr]
  · intro hr
    simp [deriveActions, h, depositBlock, occasionBlock, seatingBlock,
      dietaryBlock, statusBlock, familyBlock, hr]

theorem C10_missing_smart_tags_witness :
    deriveActions highNoTagsPrediction = [requestDepositAction] ∧
    deriveActions basePrediction = [standardServiceAction] :=
  ⟨(C10_missing_smart_tags highNoTagsPrediction rfl).1 (by decide),
   (C10_missing_smart_tags basePrediction rfl).2 (by decide)⟩

/-! ## HistoryStore claims -/

/-- Truncating after a prepend absorbs an earlier truncation of the same
width. -/
theorem take_append_take (A B : List AnalysisRecord) (n : Nat) :
    (A ++ B.take n).take n = (A ++ B).take n := by
  rw [List.take_append_eq_append_take, List.take_append_eq_append_take,
    List.take_take]
  congr 1
  exact congrArg B.take (Nat.min_eq_left (Nat.sub_le n A.length))

/-- Unrolling a nonempty burst of `saveAnalysis` calls: the run prepends the
appended records in reverse (newest first) and truncates once at the end. -/
theorem appendAll_cons_eq (rs : List AnalysisRecord) :
    ∀ (r : AnalysisRecord) (l : List AnalysisRecord),
      appendAll (r :: rs) l = ((r :: rs).reverse ++ l).take MAX_RECORDS := by
  induction rs with
  | nil => intro r l; simp [appendAll, saveAnalysis]
  | cons r2 rs ih =>
      intro r l
      have step : appendAll (r :: r2 :: rs) l
          = appendAll (r2 :: rs) ((r :: l).take MAX_RECORDS) := rfl
      rw [step, ih r2 ((r :: l).take MAX_RECORDS)]
      rw [show (r :: r2 :: rs).reverse = (r2 :: rs).reverse ++ [r] by simp]
      rw [List.append_assoc, List.singleton_append]
      exact take_append_take _ _ _

/-- Claim C3: from any initial history state, a burst of at least
`MAX_RECORDS` (= 100) appends leaves exactly the 100 most recently appended
records, newest first; the cap is enforced on every single append (its
result never exceeds 100 records, even when the pre-existing stored
sequence already did), and eviction always drops from the tail, i.e. the
logically oldest records. -/
theorem C3_history_cap (recs init : List AnalysisRecord)
    (hlen : MAX_RECORDS ≤ recs.length) :
    appendAll recs init = recs.reverse.take MAX_RECORDS ∧
    (appendAll recs init).length = MAX_RECORDS ∧
    ∀ (r : AnalysisRecord) (l : List AnalysisRecord),
      (saveAnalysis r l).length ≤ MAX_RECORDS := by
  obtain ⟨r, rs, rfl⟩ : ∃ r rs, recs = r :: rs := by
    cases recs with
    | nil => simp [MAX_RECORDS] at hlen
    | cons r rs => exact ⟨r, rs, rfl⟩
  have h1 : appendAll (r :: rs) init
      = ((r :: rs).reverse ++ init).take MAX_RECORDS :=
    appendAll_cons_eq rs r init
  have h2 : ((r :: rs).reverse ++ init).take MAX_RECORDS
      = (r :: rs).reverse.take MAX_RECORDS :=
    List.take_append_of_le_length (by simpa using hlen)
  refine ⟨h1.trans h2, ?_, ?_⟩
  · rw [h1.trans h2, List.length_take, List.length_reverse]
    exact Nat.min_eq_left hlen
  · intro r' l
    exact List.length_take_le MAX_RECORDS (r' :: l)

theorem C3_history_cap_witness :
    appendAll (List.replicate MAX_RECORDS sampleRecord) [oldRecord]
      = (List.replicate MAX_RECORDS sampleRecord).reverse.take MAX_RECORDS ∧
    (saveAnalysis sampleRecord [oldRecord]).length ≤ MAX_RECORDS :=
  ⟨(C3_history_cap (List.replicate MAX_RECORDS sampleRecord) [oldRecord]
      (by simp)).1,
   (C3_history_cap (List.replicate MAX_RECORDS sampleRecord) [oldRecord]
      (by simp)).2.2 sampleRecord [oldRecord]⟩

/-- Claim C6: an append makes the new record the head of the listed
sequence; a remove leaves no record with the removed id, keeps the survivors
in their relative order (the result is a sublist) while dropping nothing
else, is a no-op rather than an error when the id is absent; and after a
clear the listed sequence is empty. -/
theorem C6_round_trip :
    (∀ (r : AnalysisRecord) (l : List AnalysisRecord),
       (saveAnalysis r l).head? = some r) ∧
    (∀ (id : String) (l : List AnalysisRecord),
       (∀ r ∈ deleteRecord id l, r.id ≠ id) ∧
       (deleteRecord id l).Sublist l ∧
       (∀ r ∈ l, r.id ≠ id → r ∈ deleteRecord id l)) ∧
    (∀ (id : String) (l : List AnalysisRecord),
       (∀ r ∈ l, r.id ≠ id) → deleteRecord id l = l) ∧
    (∀ store : StoredHistory,
       getHistory (clearHistory store) = .records []) := by
  refine ⟨fun r l => rfl, ?_, ?_, fun store => rfl⟩
  · intro id l
    refine ⟨?_, List.filter_sublist l, ?_⟩
    · intro r hr
      have := (List.mem_filter.mp hr).2
      exact bne_iff_ne.mp this
    · intro r hr hne
      exact List.mem_filter.mpr ⟨hr, bne_iff_ne.mpr hne⟩
  · intro id l h
    exact List.filter_eq_self.mpr fun r hr => bne_iff_ne.mpr (h r hr)

theorem C6_round_trip_witness :
    (saveAnalysis sampleRecord [oldRecord]).head? = some sampleRecord ∧
    (deleteRecord oldRecord.id [sampleRecord, oldRecord]).Sublist
      [sampleRecord, oldRecord] ∧
    sampleRecord ∈ deleteRecord oldRecord.id [sampleRecord, oldRecord] ∧
    deleteRecord "no-such-id" [sampleRecord] = [sampleRecord] ∧
    getHistory (clearHistory (.recordArray [sampleRecord])) = .records [] :=
  ⟨C6_round_trip.1 sampleRecord [oldRecord],
   (C6_round_trip.2.1 oldRecord.id [sampleRecord, oldRecord]).2.1,
   (C6_round_trip.2.1 oldRecord.id [sampleRecord, oldRecord]).2.2
     sampleRecord (List.mem_cons_self sampleRecord [oldRecord]) (by decide),
   C6_round_trip.2.2.1 "no-such-id" [sampleRecord] (by decide),
   C6_round_trip.2.2.2 (.recordArray [sampleRecord])⟩

/-- Claim C7 counterexample: the storage key holding the raw string "5" is
corrupted (it is not the serialization of a record array) yet `JSON.parse`
succeeds on it, producing the number 5; `getHistory` returns that value
through its unchecked cast instead of the empty sequence, so the corruption
reaches the caller. -/
theorem C7_corrupted_parseable_counterexample :
    getHistory (.otherValue (.jnum 5)) = .malformed (.jnum 5) ∧
    getHistory (.otherValue (.jnum 5)) ≠ .records [] :=
  ⟨rfl, by simp [getHistory]⟩

/-- Claim C7 (amended): `list()` never raises — the only throwing operation
sits inside the try/catch — and absent, empty, or unparseable storage yields
the empty sequence; but storage whose content parses successfully to a
value that is not a record array is returned as-is through an unchecked
cast, so that form of corruption IS propagated to the caller. -/
theorem C7_list_recovery_amended :
    getHistory .absent = .records [] ∧
    getHistory .emptyString = .records [] ∧
    (∀ raw : String, getHistory (.unparseable raw) = .records []) ∧
    (∀ v : JsonValue, getHistory (.otherValue v) = .malformed v) :=
  ⟨rfl, rfl, fun _ => rfl, fun _ => rfl⟩

/-! ## RequestScheduler claims -/

/-- Within a burst whose consecutive gaps stay under the debounce window,
each `schedule` call only replaces the pending timer: no timer ever fires,
so no fetch is issued, and at the end the pending timer is the last
call's. -/
theorem runScheds_within (calls : List (Nat × ReservationInput)) :
    ∀ lastCall : Nat × ReservationInput, calls.getLast? = some lastCall →
    gapsWithin calls = true →
    (∀ c ∈ calls, ¬ jsTrim c.2.guest_name = "") →
    ∀ s : SimState,
      (∀ ft g c0, s.pending = some (ft, g) → calls.head? = some c0 →
        c0.1 < ft) →
      runEventsFrom s (schedEvents calls)
        = { s with pending := some (lastCall.1 + 600, lastCall.2) } := by
  induction calls with
  | nil => intro lastCall h; simp at h
  | cons c rest ih =>
    intro lastCall hlast hgaps hnames s hp
    have hname : ¬ jsTrim c.2.guest_name = "" :=
      hnames c (List.mem_cons_self _ _)
    have hfire : fireIfDue c.1 s = s := by
      cases hpend : s.pending with
      | none => simp [fireIfDue, hpend]
      | some p =>
        obtain ⟨ft, g⟩ := p
        have hlt : c.1 < ft := hp ft g c hpend rfl
        simp [fireIfDue, hpend, Nat.not_le.mpr hlt]
    have hstep : stepEvent s (.sched c.1 c.2)
        = { s with pending := some (c.1 + 600, c.2) } := by
      simp [stepEvent, hfire, triggerSimulation, hname]
    cases rest with
    | nil =>
      have hc : c = lastCall := by simpa using hlast
      subst hc
      simpa [schedEvents, runEventsFrom] using hstep
    | cons c2 rest2 =>
      have hlast2 : (c2 :: rest2).getLast? = some lastCall := by
        simpa [List.getLast?_cons_cons] using hlast
      simp only [gapsWithin, Bool.and_eq_true, decide_eq_true_eq] at hgaps
      have hnames2 : ∀ x ∈ c2 :: rest2, ¬ jsTrim x.2.guest_name = "" :=
        fun x hx => hnames x (List.mem_cons_of_mem _ hx)
      have hrun : runEventsFrom s (schedEvents (c :: c2 :: rest2))
          = runEventsFrom (stepEvent s (.sched c.1 c.2))
              (schedEvents (c2 :: rest2)) := rfl
      rw [hrun, hstep, ih lastCall hlast2 hgaps.2 hnames2 _ ?_]
      intro ft g c0 hpend hhead
      have h1 : c.1 + 600 = ft ∧ c.2 = g := by simpa using hpend
      have h2 : c2 = c0 := by simpa using hhead
      rw [← h2, ← h1.1]
      exact hgaps.1.2

/-- Claim C2: a burst of one or more `schedule` calls with non-blank guest
names, each within 600ms of its predecessor, issues exactly one network
call, whose request body is the last call's input: every earlier call's
timer is cleared before it can fire, and only the final timer's fetch goes
out. -/
theorem C2_debounce_collapse (calls : List (Nat × ReservationInput))
    (lastCall : Nat × ReservationInput)
    (hlast : calls.getLast? = some lastCall)
    (hgaps : gapsWithin calls = true)
    (hnames : ∀ c ∈ calls, ¬ jsTrim c.2.guest_name = "") :
    (flushPending (runEvents (schedEvents calls))).issued
      = [(0, lastCall.2)] ∧
    (flushPending (runEvents (schedEvents calls))).nextId = 1 := by
  have h : runEvents (schedEvents calls)
      = { initSimState with pending := some (lastCall.1 + 600, lastCall.2) } :=
    runScheds_within calls lastCall hlast hgaps hnames initSimState
      (by intro ft g c0 hpend; simp [initSimState] at hpend)
  rw [runEvents] at h
  rw [runEvents, h]
  exact ⟨rfl, rfl⟩

theorem C2_debounce_collapse_witness :
    (flushPending (runEvents (schedEvents burstCalls))).issued
      = [(0, formR2)] ∧
    (flushPending (runEvents (schedEvents burstCalls))).nextId = 1 :=
  C2_debounce_collapse burstCalls (100, formR2) rfl rfl (by decide)

/-- Claim C8: a `schedule` whose form has an empty or whitespace-only guest
name returns before touching any state — no debounce timer is started, no
fetch is issued, nothing is surfaced — whereas an explicit submit with such
a name surfaces the inline message "Guest name is required" to the user and
makes no network call. -/
theorem C8_blank_name_validation (t : Nat) (f form : ReservationInput)
    (s : SimState) (res : HttpResponse)
    (hf : jsTrim f.guest_name = "")
    (hform : jsTrim form.guest_name = "") :
    triggerSimulation t f s = s ∧
    handleSubmit form res
      = { error := "Guest name is required", prediction := none,
          networkCalled := false } := by
  constructor
  · simp [triggerSimulation, hf]
  · simp [handleSubmit, hform]

theorem C8_blank_name_validation_witness :
    triggerSimulation 0 blankForm initSimState = initSimState ∧
    handleSubmit blankForm okResponse
      = { error := "Guest name is required", prediction := none,
          networkCalled := false } :=
  C8_blank_name_validation 0 blankForm blankForm initSimState okResponse
    (by decide) (by decide)

/-- Claim C1 (code bug): in the superseding scenario, request 0 (R1) is
already in flight when the t=700 `schedule` supersedes it, yet R1's late
response is still delivered after R2's: `abort()` is called on an
AbortController whose signal was never passed to `predictGuestBehavior`'s
fetch, and delivery performs no generation check, so `onPrediction` fires
for the stale result too and it overwrites R2's fresher one as the final
delivered value. -/
theorem C1_stale_response_delivered :
    (runEvents staleTrace).issued = [(0, formR1), (1, formR2)] ∧
    (runEvents staleTrace).delivered
      = [(1, predictionR2), (0, predictionR1)] ∧
    (runEvents staleTrace).delivered.getLast? = some (0, predictionR1) :=
  ⟨rfl, rfl, rfl⟩

/-- `fireIfDue` never touches the surfaced-error log. -/
theorem fireIfDue_surfacedErrors (t : Nat) (s : SimState) :
    (fireIfDue t s).surfacedErrors = s.surfacedErrors := by
  cases hp : s.pending with
  | none => simp [fireIfDue, hp]
  | some p =>
    obtain ⟨ft, f⟩ := p
    by_cases h : ft ≤ t <;> simp [fireIfDue, hp, h]

/-- `fireIfDue` never touches the delivery log. -/
theorem fireIfDue_delivered (t : Nat) (s : SimState) :
    (fireIfDue t s).delivered = s.delivered := by
  cases hp : s.pending with
  | none => simp [fireIfDue, hp]
  | some p =>
    obtain ⟨ft, f⟩ := p
    by_cases h : ft ≤ t <;> simp [fireIfDue, hp, h]

/-- No event-loop step ever surfaces an error: the component has no error
callback and the catch block at part_001 lines 84-85 is empty. -/
theorem stepEvent_surfacedErrors (s : SimState) (e : SimEvent) :
    (stepEvent s e).surfacedErrors = s.surfacedErrors := by
  cases e with
  | sched t f =>
    simp only [stepEvent, triggerSimulation]
    split
    · exact fireIfDue_surfacedErrors t s
    · exact fireIfDue_surfacedErrors t s
  | respondOk t id p =>
    simp only [stepEvent]
    split
    · exact fireIfDue_surfacedErrors t s
    · exact fireIfDue_surfacedErrors t s
  | respondErr t id =>
    simp only [stepEvent]
    split
    · exact fireIfDue_surfacedErrors t s
    · exact fireIfDue_surfacedErrors t s

/-- Running any event list never surfaces an error. -/
theorem runEventsFrom_surfacedErrors (evs : List SimEvent) :
    ∀ s : SimState, (runEventsFrom s evs).surfacedErrors = s.surfacedErrors := by
  induction evs with
  | nil => intro s; rfl
  | cons e evs ih =>
    intro s
    have h : runEventsFrom s (e :: evs) = runEventsFrom (stepEvent s e) evs :=
      rfl
    rw [h, ih, stepEvent_surfacedErrors]

/-- Claim C9 counterexample: a scheduled request that really fails (request
0 of `failTrace`: scheduled at t=0, fetch issued at t=600, rejected at
t=700) produces no invocation of any error path — contrary to the claim
that the scheduler invokes the caller's error path with a classifying
message — and no result delivery either. -/
theorem C9_network_error_swallowed :
    (runEvents failTrace).issued = [(0, formR1)] ∧
    (runEvents failTrace).arrived = [0] ∧
    (runEvents failTrace).surfacedErrors = [] ∧
    (runEvents failTrace).delivered = [] :=
  ⟨rfl, rfl, rfl, rfl⟩

/-- Claim C9 (amended): a debounced request that fails with a network or
transport error invokes neither the result callback nor any error path —
the empty catch block swallows every failure, and across any run of the
component no error is ever surfaced; the human-readable
`Prediction failed: <statusText>` classification reaches the user only on
the explicit-submit path, which is outside the debounced scheduler. -/
theorem C9_scheduled_failures_silent (evs : List SimEvent) :
    (runEvents evs).surfacedErrors = [] ∧
    (∀ (s : SimState) (t id : Nat),
      (stepEvent s (.respondErr t id)).delivered = s.delivered ∧
      (stepEvent s (.respondErr t id)).surfacedErrors = s.surfacedErrors) ∧
    (∀ (form : ReservationInput) (res : HttpResponse),
      ¬ jsTrim form.guest_name = "" → res.ok = false →
      handleSubmit form res
        = { error := "Prediction failed: " ++ res.statusText,
            prediction := none, networkCalled := true }) := by
  refine ⟨runEventsFrom_surfacedErrors evs initSimState, ?_, ?_⟩
  · intro s t id
    constructor
    · simp only [stepEvent]
      split
      · exact fireIfDue_delivered t s
      · exact fireIfDue_delivered t s
    · exact stepEvent_surfacedErrors s (.respondErr t id)
  · intro form res hname hok
    simp [handleSubmit, hname, predictGuestBehavior, hok]

theorem C9_scheduled_failures_silent_witness :
    (runEvents failTrace).surfacedErrors = [] ∧
    (stepEvent initSimState (.respondErr 700 0)).delivered
      = initSimState.delivered ∧
    handleSubmit formR1 errResponse
      = { error := "Prediction failed: Internal Server Error",
          prediction := none, networkCalled := true } :=
  ⟨(C9_scheduled_failures_silent failTrace).1,
   ((C9_scheduled_failures_silent failTrace).2.1 initSimState 700 0).1,
   (C9_scheduled_failures_silent failTrace).2.2 formR1 errResponse
     (by decide) rfl⟩
